import Mathlib

set_option maxRecDepth 10000

/-! Verification of bucket2http (src/main.go): an HTTP front-end that serves an
S3-compatible bucket as if it were a static file tree.  The pure Go helpers
(string trimming, path.Clean/Dir/Base, size formatting) are translated directly
as Lean functions; the MinIO client is modelled as an abstract `Store` record of
response functions, and the request handlers as functions from a `Store` and a
request path to an explicit outcome value.  String operations are written over
`List Char` so that every definition reduces inside the kernel. -/

/-- Go `strings.TrimPrefix(s, pre)`: drop `pre` once when `s` starts with it. -/
def goTrimPre (s pre : String) : String :=
  if pre.data.isPrefixOf s.data then String.mk (s.data.drop pre.data.length) else s

/-- Go `strings.TrimSuffix(s, suf)`: drop `suf` once when `s` ends with it. -/
def goTrimSuffix (s suf : String) : String :=
  if suf.data.isSuffixOf s.data then String.mk (s.data.take (s.data.length - suf.data.length))
  else s

/-- Go `path.Base`: strip trailing slashes, then keep everything after the last
slash; `""` gives `"."` and an all-slash path gives `"/"`. -/
def goPathBase (p : String) : String :=
  if p = "" then "." else
    let cs := (p.data.reverse.dropWhile (fun c => c == '/')).reverse
    let base := (cs.reverse.takeWhile (fun c => c != '/')).reverse
    if base = [] then "/" else String.mk base

/-- The backtracking step of Go `path.Clean` for a `..` element.  The output
buffer is kept reversed (`ro`), `c` is the character most recently removed from
it, and `dd` is the protected length (Go's `dotdot`): characters are removed
from the end until the removed character is a slash or the buffer length
reaches `dd`. -/
def cleanBacktrack (dd : Nat) : List Char → Char → List Char
  | [], _ => []
  | c2 :: rest, c =>
      if dd < (c2 :: rest).length ∧ c ≠ '/' then cleanBacktrack dd rest c2 else c2 :: rest

/-- True when a path element ends here: end of input or a following slash.  Used
by `cleanLoop` for the `.` and `..` element tests of Go `path.Clean`. -/
def isSegEnd (rs : List Char) : Bool :=
  rs.isEmpty || rs.head? == some '/'

/-- The main loop of Go `path.Clean`.  `p` is the unread input, `ro` the output
buffer kept in reverse, `dd` the index into the buffer below which `..`
elements may not backtrack.  The `fuel` argument (initialised to the input
length, an upper bound on the iteration count because every iteration consumes
at least one input character) makes the recursion structural so that the
function reduces in the kernel. -/
def cleanLoop (rooted : Bool) : Nat → List Char → List Char → Nat → List Char
  | 0, _, ro, _ => ro
  | _ + 1, [], ro, _ => ro
  | fuel + 1, c :: rs, ro, dd =>
    if c = '/' then
      cleanLoop rooted fuel rs ro dd
    else if c = '.' ∧ isSegEnd rs then
      cleanLoop rooted fuel rs ro dd
    else if c = '.' ∧ rs.head? = some '.' ∧ isSegEnd rs.tail then
      if dd < ro.length then
        match ro with
        | [] => cleanLoop rooted fuel rs.tail ro dd
        | c0 :: rest => cleanLoop rooted fuel rs.tail (cleanBacktrack dd rest c0) dd
      else if !rooted then
        let ro2 := '.' :: '.' :: (if ro.length > 0 then '/' :: ro else ro)
        cleanLoop rooted fuel rs.tail ro2 ro2.length
      else
        cleanLoop rooted fuel rs.tail ro dd
    else
      let pre2 := if (rooted ∧ ro.length ≠ 1) ∨ (¬rooted ∧ ro.length ≠ 0) then '/' :: ro else ro
      cleanLoop rooted fuel (rs.dropWhile (fun x => x != '/'))
        ((rs.takeWhile (fun x => x != '/')).reverse ++ c :: pre2) dd

/-- Go `path.Clean`: lexical simplification of a slash path. -/
def goClean (p : String) : String :=
  if p = "" then "."
  else
    let cs := p.data
    let out :=
      if cs.head? = some '/' then cleanLoop true cs.tail.length cs.tail ['/'] 1
      else cleanLoop false cs.length cs [] 0
    if out = [] then "." else String.mk out.reverse

/-- Go `path.Dir`: the portion up to and including the final slash (Go
`path.Split`), then `path.Clean`-ed. -/
def goDir (p : String) : String :=
  goClean (String.mk ((p.data.reverse.dropWhile (fun c => c != '/')).reverse))

example : goClean "a/" = "a" := by decide
example : goClean "/" = "/" := by decide
example : goClean "" = "." := by decide
example : goClean "a/.." = "." := by decide
example : goClean "a/b/.." = "a" := by decide
example : goClean "/a//b/" = "/a/b" := by decide
example : goClean "../x" = "../x" := by decide
example : goDir "a/b" = "a" := by decide
example : goDir "a" = "." := by decide
example : goDir "" = "." := by decide
example : goDir "x/y" = "x" := by decide
example : goPathBase "d/f.txt" = "f.txt" := by decide
example : goPathBase "a/b/c/" = "c" := by decide
example : goPathBase "" = "." := by decide
example : goPathBase "///" = "/" := by decide
example : goTrimPre "/a/b" "/" = "a/b" := by decide
example : goTrimPre "a" "/" = "a" := by decide
example : goTrimSuffix "a/b/" "/" = "a/b" := by decide

/-- The unit-selection loop of `formatSize` (main.go 275-279): starting from
`n = size/1024`, repeatedly divide by 1024, multiplying `div` and bumping `exp`,
until `n < 1024`.  The `fuel` argument (initialised to the starting `n`, an
upper bound on the iteration count since `n` strictly shrinks while at least
1024) makes the recursion structural so that the function reduces in the
kernel; all values are non-negative `int64` quantities in Go, so `Nat`
arithmetic coincides. -/
def sizeLoop : Nat → Nat → Nat → Nat → Nat × Nat
  | 0, _, dv, ex => (dv, ex)
  | fuel + 1, n, dv, ex =>
      if 1024 ≤ n then sizeLoop fuel (n / 1024) (dv * 1024) (ex + 1) else (dv, ex)

/-- Go `fmt.Sprintf("%.1f", float64(n)/float64(dv))` for the quantities arising
in `formatSize`, modelled exactly: the quotient rendered with one decimal
digit, rounding half to even (Go prints the correctly rounded decimal of the
double; a difference from the real-number rounding modelled here could arise
only beyond 2^53, where the float64 conversion itself rounds). -/
def formatOneDecimal (n dv : Nat) : String :=
  let q := n * 10 / dv
  let r := n * 10 % dv
  let q2 := if dv < 2 * r ∨ (2 * r = dv ∧ q % 2 = 1) then q + 1 else q
  toString (q2 / 10) ++ "." ++ toString (q2 % 10)

/-- Go `formatSize` (main.go 270-281): sizes below 1024 bytes as `"<n> B"`,
otherwise one decimal with the unit letter picked by `sizeLoop`. -/
def formatSize (size : Int) : String :=
  if size < 1024 then toString size ++ " B"
  else
    formatOneDecimal size.toNat (sizeLoop (size.toNat / 1024) (size.toNat / 1024) 1024 0).1 ++
      " " ++
      String.singleton
        ("KMGTPE".data.getD (sizeLoop (size.toNat / 1024) (size.toNat / 1024) 1024 0).2 'A') ++
      "B"

example : formatSize 0 = "0 B" := by decide
example : formatSize 1023 = "1023 B" := by decide
example : formatSize 1024 = "1.0 KB" := by decide
example : formatSize 1536 = "1.5 KB" := by decide
example : formatSize 1048576 = "1.0 MB" := by decide
example : formatSize 2048 = "2.0 KB" := by decide
example : formatSize 1100 = "1.1 KB" := by decide
example : formatSize (-5) = "-5 B" := by decide
example : formatSize (1073741824 * 1024) = "1.0 TB" := by decide

/-- The base64 `<img>` snippet returned by `getFileIcon` for directories
(main.go 312). -/
def dirIconImg : String :=
  "<img src=\"data:image/png;base64,iVBORw0KGgoAAAANSUhEUgAAABcAAAAWCAYAAAArdgcFAAAAAXNSR0IArs4c6QAAAARnQU1BAACxjwv8YQUAAAAJcEhZcwAADsMAAA7DAcdvqGQAAAH/SURBVEhLxdPfS1phHAZw7/XCP0JBlsIkNhgULAYjUjkzByuDEAx2ZlQWZm4VhZbWoagoibGti7WwGGUUjo3KflLjELHdrLGiHxeDXQi7iA0p4qn37WRl54BIhx54vHrfj3zf9z0KyJgUHggE4HA4JMuyLJLJpLA6s1A8FAohVFsGrsYm2Y7qp2jwepBIJOjGTKLgOA4+J4O96SCw/lqyydUwmpxF6Gj3g+xJbzQaFciLKE6DmR4n/i/3iqLnPeYH8Svigbu0AA7zg2utZ+2IxWICexaKD9U9xs+ROuxPNEp2d/wVPrcX499Sj+ifz4WrYH54D/F4XKAFfHuyDQvddkw0Fkp2qsWMo69hUZhM/e2dCy+td6DVasHz/FVcbFOmJcf1viYPfnsu9Ho9QW8OJ/exPeaVB9/8UIu3L+7Lgx+uDeDHsFsefOejDxFPgTz4wUI3+MEKefDfUy2YbrXIgye+BDHfVXqLOBnv72wnXfwn5qdnuR9toq9ha7SevmdyeeSLvLx24w0rfiwmkwkjwefYjPgw2VyElb5yzHHP8CnwhF7SmPdR6h0TeNidj+9DldfWLvZXoJJJw8mP1WqFy5SD1pK7aCvLzaquU9hoNEKj0UCpVF7gJDabDTqdDgaDIesSWK1Ww2KxUDOFk5AJyEjZVqVSgWEYQUvDbzbACZHvxmyDCBW5AAAAAElFTkSuQmCC\" class=\"icon\" alt=\"[DIR]\">"

/-- The base64 `<img>` snippet returned by `getFileIcon` for regular files
(main.go 314). -/
def fileIconImg : String :=
  "<img src=\"data:image/png;base64,iVBORw0KGgoAAAANSUhEUgAAABYAAAAbCAYAAAB4Kn/lAAAAAXNSR0IArs4c6QAAAARnQU1BAACxjwv8YQUAAAAJcEhZcwAADsMAAA7DAcdvqGQAAAIVSURBVEhLtZW/y3FhGMctJilFKZKB8gdYMCmbxUBRJpOYlSxYjQx+LMrERIQQFkQiGaRYlB+hZLKQrqfrzvHynuc8jsf7fusznHPd96f7nHNf9+HAfwoRq9XqX9FsNonku9zFrVYLZrMZK4xGIxSLRQgGg1Cr1Yjo79zFy+WS3GATk8kE4/EYJpMJhMNhqFQqt8qffCTGDAYDSCQSUK1WyTWVj8WYXq8H8Xj86Z3TxO12GzKZDA18p1T0ej3EYjHIZrNQKBQgn8+Dz+cDm80G9XqdjKGJvV4vaDQaGmazmdQxCoUC5HI58Pl8EIvFIBKJQCAQgFQqBZ1OR8bQxIfDAdbrNY3dbkfqGK1WCxKJBIRCIRFS8Hg8ZrHFYgEul0tDpVKROuZyucD5fIZSqQTRaPSO0+lkFm82G5jP5zQWiwWpP+Z0OkGj0SC7AnG5XMziQCAABoOBFdhUx+MRVqsVdDqdn8W4gmQyyYrHp8Bm+VGcTqfJqtkwnU7JHMxLcSQSAYfDwYrhcEjmYF6KsaNwk7Nhv9+TOZiXYrfbDUqlkhWP58NL8WOu1yvZr0xgncpb4lQqRTqMiXK5fBv5pni73UK322UE25/KW2L8O1itVkb6/f5t5Jvi0WgEoVCIEfxNUXlL/E4YxblcjqwA2/Q34IfEM/tJjCc/4vF4wO/3/wq73Q4ymexZTAVvcjicj/hW/O8C8AXGNRjtT4rvuAAAAABJRU5ErkJggg==\" class=\"icon\" alt=\"[FILE]\">"

/-- Go `getFileIcon` (main.go 306-316): lower-case the argument and pick the
directory image for `"dir"`, the file image otherwise. -/
def getFileIcon (filename : String) : String :=
  let ext := String.mk (filename.data.map Char.toLower)
  if ext = "dir" then dirIconImg else fileIconImg

/-- Go struct `DirEntry` (main.go 102-109); the view model of one listing row.
`ModTime` abstracts `time.Time` as an instant count with zero value `0`, and
`Icon` holds the `template.HTML` snippet as a plain string. -/
structure DirEntry where
  URL : String
  Name : String
  Size : String
  ModTime : Nat
  IsDir : Bool
  Icon : String
deriving DecidableEq, Repr

/-- The fields of `minio.ObjectInfo` that `handleFile` consumes from
`StatObject`: the content type and the byte size. -/
structure ObjectInfo where
  ContentType : String
  Size : Int
deriving DecidableEq, Repr

/-- Go's zero value `minio.ObjectInfo{}`, which `StatObject` returns alongside
a non-nil error. -/
def zeroObjectInfo : ObjectInfo :=
  { ContentType := "", Size := 0 }

/-- A store error as seen through `minio.ToErrorResponse`: only the response
code is consulted by the program. -/
structure StoreErr where
  Code : String
deriving DecidableEq, Repr

/-- One item received from the `ListObjects` channel: the fields of
`minio.ObjectInfo` that `handleDirectory` consumes, plus the channel's `Err`
slot. -/
structure ListedObj where
  Key : String
  Size : Int
  LastModified : Nat
  StorageClass : String
  Err : Option StoreErr
deriving DecidableEq, Repr

/-- The MinIO client as seen by the handlers: each request-level primitive is a
function of the key, so one `Store` value fixes the store's response to every
call the handlers can make.  `getObject` is the error slot of `GetObject`
(the stream itself is not inspected before `io.Copy`), and `copyResult` is the
outcome of the `io.Copy` byte transfer. -/
structure Store where
  statObject : String → Except StoreErr ObjectInfo
  getObject : String → Except StoreErr Unit
  copyResult : String → Except StoreErr Unit
  listObjects : String → List ListedObj

/-- Go multi-value return of `StatObject`: the `ObjectInfo` half, which is the
zero value whenever the error half is non-nil. -/
def statInfo : Except StoreErr ObjectInfo → ObjectInfo
  | .ok i => i
  | .error _ => zeroObjectInfo

/-- The exact exit taken by `handleFile` (main.go 148-179), refining its `bool`
result: the `notHandled*` constructors are the `return false` sites in source
order (directory marker at 151-153, NoSuchKey at 155-157, logged stat failure
at 158-159, logged GetObject failure at 164-167) and the `handled*`
constructors the `return true` exits (with and without a logged `io.Copy`
error at 175-177). -/
inductive FileOutcome where
  | notHandledDirMarker
  | notHandledNoSuchKey
  | notHandledStatErrLogged
  | notHandledGetErrLogged
  | handledCopyErrLogged
  | handledOk
deriving DecidableEq, Repr

/-- The `bool` that Go `handleFile` actually returns. -/
def FileOutcome.handled : FileOutcome → Bool
  | .handledCopyErrLogged => true
  | .handledOk => true
  | _ => false

/-- Go `handleFile` (main.go 148-179).  Note the source checks
`objInfo.ContentType` before checking `err`, so the comparison sees the zero
`ObjectInfo` when the stat failed; response headers and the body stream are
not modelled (no claim concerns them), only the control flow and the returned
`bool`, refined into a `FileOutcome`. -/
def handleFile (s : Store) (key : String) : FileOutcome :=
  if (statInfo (s.statObject key)).ContentType = "application/x-directory" then
    .notHandledDirMarker
  else
    match s.statObject key with
    | .error e =>
        if e.Code = "NoSuchKey" then .notHandledNoSuchKey else .notHandledStatErrLogged
    | .ok _ =>
        match s.getObject key with
        | .error _ => .notHandledGetErrLogged
        | .ok _ =>
            match s.copyResult key with
            | .error _ => .handledCopyErrLogged
            | .ok _ => .handledOk

/-- The directory-key normalisation at the top of `handleDirectory`
(main.go 182-188): append `/` when missing, then map the bare `/` to the empty
root key. -/
def normPre (p : String) : String :=
  let p2 := if !("/".data.isSuffixOf p.data) then p ++ "/" else p
  if p2 = "/" then "" else p2

/-- The synthetic `..` entry appended before enumeration for a non-root key
(main.go 200-210). -/
def parentDirEntry (pre : String) : DirEntry :=
  { URL := "/" ++ (goDir (goTrimSuffix pre "/") ++ "/")
    Name := ".."
    Size := "-"
    ModTime := 0
    IsDir := true
    Icon := getFileIcon "dir" }

/-- The initial entry list of `handleDirectory`: the parent entry exactly when
the normalised key is not the bucket root (main.go 196-210). -/
def initEntries (pre : String) : List DirEntry :=
  if pre ≠ "" then [parentDirEntry pre] else []

/-- The entry built for a listing item that is not the directory placeholder
(main.go 226-246): directory row when `StorageClass` is empty, file row
otherwise. -/
def mkChildEntry (o : ListedObj) : DirEntry :=
  if o.StorageClass = "" then
    { URL := "/" ++ o.Key
      Name := goPathBase o.Key
      Size := "-"
      ModTime := 0
      IsDir := true
      Icon := getFileIcon "dir" }
  else
    { URL := "/" ++ o.Key
      Name := goPathBase o.Key
      Size := formatSize o.Size
      ModTime := o.LastModified
      IsDir := false
      Icon := getFileIcon "file" }

/-- The enumeration loop of `handleDirectory` (main.go 213-248): `none` when an
item carries a channel error (the `return false` at 214-217), otherwise the
accumulated entries and the final `hasContent` flag.  `hasContent` is set
before the placeholder skip, exactly as in the source. -/
def dirLoop (pre : String) : List ListedObj → List DirEntry → Bool →
    Option (List DirEntry × Bool)
  | [], entries, hasContent => some (entries, hasContent)
  | o :: rest, entries, _ =>
      if o.Err.isSome then none
      else if o.Key = pre then dirLoop pre rest entries true
      else dirLoop pre rest (entries ++ [mkChildEntry o]) true

/-- The exit taken by `handleDirectory`, refining its `bool` result:
`listError` is the abort on a channel error (returns false), `noContent` the
`!hasContent` miss (returns false), and `rendered` the successful listing
(returns true) with the template's path header and entry list.  A template
execution error is logged but the function still returns true, so `rendered`
covers it. -/
inductive DirOutcome where
  | listError
  | noContent
  | rendered (path : String) (entries : List DirEntry)
deriving DecidableEq, Repr

/-- The `bool` that Go `handleDirectory` actually returns. -/
def DirOutcome.handled : DirOutcome → Bool
  | .rendered _ _ => true
  | _ => false

/-- Go `handleDirectory` (main.go 181-268). -/
def handleDirectory (s : Store) (p : String) : DirOutcome :=
  match dirLoop (normPre p) (s.listObjects (normPre p)) (initEntries (normPre p)) false with
  | none => .listError
  | some (entries, hasContent) =>
      if !hasContent then .noContent else .rendered ("/" ++ normPre p) entries

/-- The three ways `handler` can answer a request: a streamed object, a
rendered listing, or the `404 Not Found` error. -/
inductive RouteResult where
  | servedFile
  | servedDirectory
  | notFound
deriving DecidableEq, Repr

/-- Go `handler` (main.go 130-146): strip one leading `/`, try the file
resolver, then the directory resolver, else answer 404. -/
def handler (s : Store) (requestPath : String) : RouteResult :=
  let key := goTrimPre requestPath "/"
  if (handleFile s key).handled then .servedFile
  else if (handleDirectory s key).handled then .servedDirectory
  else .notFound

/-! Concrete stores used to instantiate the theorems below.  Each response
function is constant in the key wherever only one key is ever queried. -/

/-- A store whose listing for `a/` contains only the directory-placeholder
object `a/` itself, and where no key stats. -/
def phStore : Store :=
  { statObject := fun _ => .error { Code := "NoSuchKey" }
    getObject := fun _ => .error { Code := "NoSuchKey" }
    copyResult := fun _ => .ok ()
    listObjects := fun _ =>
      [{ Key := "a/", Size := 0, LastModified := 0, StorageClass := "", Err := none }] }

/-- A store with no objects at all: every stat misses and every listing is
empty. -/
def emptyStore : Store :=
  { statObject := fun _ => .error { Code := "NoSuchKey" }
    getObject := fun _ => .error { Code := "NoSuchKey" }
    copyResult := fun _ => .ok ()
    listObjects := fun _ => [] }

/-- A store where the key stats as a regular object but `GetObject` fails. -/
def getFailStore : Store :=
  { statObject := fun _ => .ok { ContentType := "application/octet-stream", Size := 5 }
    getObject := fun _ => .error { Code := "InternalError" }
    copyResult := fun _ => .ok ()
    listObjects := fun _ => [] }

/-- A store where stat and `GetObject` succeed but the `io.Copy` byte transfer
fails mid-stream. -/
def copyFailStore : Store :=
  { statObject := fun _ => .ok { ContentType := "text/plain", Size := 5 }
    getObject := fun _ => .ok ()
    copyResult := fun _ => .error { Code := "BrokenPipe" }
    listObjects := fun _ => [] }

/-- A store where `a/b` exists both as a real object and as a listable key
(because `a/b/c` exists). -/
def ambStore : Store :=
  { statObject := fun _ => .ok { ContentType := "application/octet-stream", Size := 3 }
    getObject := fun _ => .ok ()
    copyResult := fun _ => .ok ()
    listObjects := fun _ =>
      [{ Key := "a/b/c", Size := 3, LastModified := 0, StorageClass := "STANDARD", Err := none }] }

/-- A store whose listing yields one good item and then a channel error. -/
def listErrStore : Store :=
  { statObject := fun _ => .error { Code := "NoSuchKey" }
    getObject := fun _ => .error { Code := "NoSuchKey" }
    copyResult := fun _ => .ok ()
    listObjects := fun _ =>
      [{ Key := "e/x", Size := 1, LastModified := 0, StorageClass := "STANDARD", Err := none },
       { Key := "", Size := 0, LastModified := 0, StorageClass := "",
         Err := some { Code := "InternalError" } }] }

/-- A store whose stat fails with a transient (non-NoSuchKey) error. -/
def statFailStore : Store :=
  { statObject := fun _ => .error { Code := "SlowDown" }
    getObject := fun _ => .ok ()
    copyResult := fun _ => .ok ()
    listObjects := fun _ => [] }

/-- A store whose listing for `d/` returns the placeholder itself, a regular
file and a sub-directory marker. -/
def fileDirStore : Store :=
  { statObject := fun _ => .error { Code := "NoSuchKey" }
    getObject := fun _ => .error { Code := "NoSuchKey" }
    copyResult := fun _ => .ok ()
    listObjects := fun _ =>
      [{ Key := "d/", Size := 0, LastModified := 0, StorageClass := "", Err := none },
       { Key := "d/f.txt", Size := 2048, LastModified := 7, StorageClass := "STANDARD", Err := none },
       { Key := "d/sub/", Size := 0, LastModified := 0, StorageClass := "", Err := none }] }

/-- The listing `fileDirStore` renders for `d/`: parent entry first, then the
file and sub-directory rows in store order (the placeholder is skipped). -/
def wEntriesC6 : List DirEntry :=
  [{ URL := "/./", Name := "..", Size := "-", ModTime := 0, IsDir := true,
     Icon := getFileIcon "dir" },
   { URL := "/d/f.txt", Name := "f.txt", Size := "2.0 KB", ModTime := 7, IsDir := false,
     Icon := getFileIcon "file" },
   { URL := "/d/sub/", Name := "sub", Size := "-", ModTime := 0, IsDir := true,
     Icon := getFileIcon "dir" }]

/-- A store with a nested key `x/y/` holding a sub-directory and a file. -/
def nestedStore : Store :=
  { statObject := fun _ => .error { Code := "NoSuchKey" }
    getObject := fun _ => .error { Code := "NoSuchKey" }
    copyResult := fun _ => .ok ()
    listObjects := fun _ =>
      [{ Key := "x/y/z/", Size := 0, LastModified := 0, StorageClass := "", Err := none },
       { Key := "x/y/w.bin", Size := 10, LastModified := 3, StorageClass := "STANDARD",
         Err := none }] }

/-- The listing `nestedStore` renders for `x/y/`. -/
def wEntriesC7 : List DirEntry :=
  [{ URL := "/x/", Name := "..", Size := "-", ModTime := 0, IsDir := true,
     Icon := getFileIcon "dir" },
   { URL := "/x/y/z/", Name := "z", Size := "-", ModTime := 0, IsDir := true,
     Icon := getFileIcon "dir" },
   { URL := "/x/y/w.bin", Name := "w.bin", Size := "10 B", ModTime := 3, IsDir := false,
     Icon := getFileIcon "file" }]

/-- A store with two top-level keys, listed at the bucket root. -/
def rootStore : Store :=
  { statObject := fun _ => .error { Code := "NoSuchKey" }
    getObject := fun _ => .error { Code := "NoSuchKey" }
    copyResult := fun _ => .ok ()
    listObjects := fun _ =>
      [{ Key := "top.txt", Size := 1, LastModified := 1, StorageClass := "STANDARD", Err := none },
       { Key := "docs/", Size := 0, LastModified := 0, StorageClass := "", Err := none }] }

/-- The listing `rootStore` renders for the bucket root: no parent entry. -/
def wEntriesRoot : List DirEntry :=
  [{ URL := "/top.txt", Name := "top.txt", Size := "1 B", ModTime := 1, IsDir := false,
     Icon := getFileIcon "file" },
   { URL := "/docs/", Name := "docs", Size := "-", ModTime := 0, IsDir := true,
     Icon := getFileIcon "dir" }]

/-- A store whose key stats as a directory placeholder
(`application/x-directory`). -/
def dirMarkerStore : Store :=
  { statObject := fun _ => .ok { ContentType := "application/x-directory", Size := 0 }
    getObject := fun _ => .ok ()
    copyResult := fun _ => .ok ()
    listObjects := fun _ => [] }

/-- A store with a single top-level directory `a/` holding one file. -/
def topDirStore : Store :=
  { statObject := fun _ => .error { Code := "NoSuchKey" }
    getObject := fun _ => .error { Code := "NoSuchKey" }
    copyResult := fun _ => .ok ()
    listObjects := fun _ =>
      [{ Key := "a/file", Size := 1, LastModified := 2, StorageClass := "STANDARD",
         Err := none }] }

/-- The listing `topDirStore` renders for `a/`: note the `..` URL `/./`. -/
def wEntriesC10 : List DirEntry :=
  [{ URL := "/./", Name := "..", Size := "-", ModTime := 0, IsDir := true,
     Icon := getFileIcon "dir" },
   { URL := "/a/file", Name := "file", Size := "1 B", ModTime := 2, IsDir := false,
     Icon := getFileIcon "file" }]

/-! General lemmas about the enumeration loop and the directory resolver. -/

/-- If `dirLoop` completes, the produced entries are the starting entries
followed by one `mkChildEntry` per listed item whose key differs from the
normalised key, in listing order; the final `hasContent` flag records whether
any item at all was received; and no item carried a channel error. -/
theorem dirLoop_eq_some (pre : String) (objs : List ListedObj) :
    ∀ (entries es : List DirEntry) (hc b : Bool),
      dirLoop pre objs entries hc = some (es, b) →
      es = entries ++ (objs.filter (fun o => o.Key != pre)).map mkChildEntry ∧
      b = (hc || !objs.isEmpty) ∧ ∀ o ∈ objs, o.Err = none := by
  induction objs with
  | nil =>
      intro entries es hc b h
      simp [dirLoop] at h
      simp [h.1.symm, h.2.symm]
  | cons o rest ih =>
      intro entries es hc b h
      by_cases he : o.Err.isSome = true
      · simp [dirLoop, he] at h
      · rw [dirLoop, if_neg (by simp [he])] at h
        have hen : o.Err = none := Option.not_isSome_iff_eq_none.mp (by simp [he])
        by_cases hk : o.Key = pre
        · rw [if_pos hk] at h
          obtain ⟨h1, h2, h3⟩ := ih entries es true b h
          refine ⟨?_, ?_, ?_⟩
          · simpa [List.filter_cons, hk] using h1
          · simp at h2; simp [h2]
          · intro o' ho'
            rcases List.mem_cons.mp ho' with rfl | hm
            · exact hen
            · exact h3 o' hm
        · rw [if_neg hk] at h
          obtain ⟨h1, h2, h3⟩ := ih (entries ++ [mkChildEntry o]) es true b h
          refine ⟨?_, ?_, ?_⟩
          · rw [h1]
            simp [List.filter_cons, hk]
          · simp at h2; simp [h2]
          · intro o' ho'
            rcases List.mem_cons.mp ho' with rfl | hm
            · exact hen
            · exact h3 o' hm

/-- If any listed item carries a channel error, `dirLoop` aborts with `none`,
whatever was accumulated before. -/
theorem dirLoop_err (pre : String) (objs : List ListedObj) :
    ∀ (entries : List DirEntry) (hc : Bool),
      (∃ o ∈ objs, o.Err.isSome = true) → dirLoop pre objs entries hc = none := by
  induction objs with
  | nil =>
      intro entries hc h
      simp at h
  | cons o rest ih =>
      intro entries hc h
      by_cases he : o.Err.isSome = true
      · simp [dirLoop, he]
      · have hr : ∃ o' ∈ rest, o'.Err.isSome = true := by
          rcases h with ⟨o', ho', h2⟩
          rcases List.mem_cons.mp ho' with rfl | hm
          · exact absurd h2 he
          · exact ⟨o', hm, h2⟩
        rw [dirLoop, if_neg (by simp [he])]
        by_cases hk : o.Key = pre
        · rw [if_pos hk]; exact ih _ _ hr
        · rw [if_neg hk]; exact ih _ _ hr

/-- A rendered listing consists of the initial entries (the optional `..`)
followed by the child rows in store order, and its header is the slash-rooted
normalised key. -/
theorem handleDirectory_rendered (s : Store) (p pth : String) (es : List DirEntry)
    (h : handleDirectory s p = .rendered pth es) :
    es = initEntries (normPre p) ++
      ((s.listObjects (normPre p)).filter (fun o => o.Key != normPre p)).map mkChildEntry ∧
    pth = "/" ++ normPre p := by
  unfold handleDirectory at h
  rcases hd : dirLoop (normPre p) (s.listObjects (normPre p)) (initEntries (normPre p)) false
    with _ | ⟨es2, b⟩
  · rw [hd] at h; simp at h
  · rw [hd] at h
    cases b
    · simp at h
    · simp at h
      obtain ⟨h1, _, _⟩ := dirLoop_eq_some (normPre p) (s.listObjects (normPre p))
        (initEntries (normPre p)) es2 false true hd
      exact ⟨h.2 ▸ h1, h.1.symm⟩

/-- An empty listing makes the directory resolver miss with `noContent`. -/
theorem handleDirectory_nil (s : Store) (p : String)
    (h : s.listObjects (normPre p) = []) : handleDirectory s p = .noContent := by
  unfold handleDirectory
  rw [h]
  simp [dirLoop]

/-- `goDir` of any slash-free string is `"."`: Go `path.Split` leaves an empty
directory part and `path.Clean("")` is `"."`. -/
theorem goDir_no_slash (t : String) (h : ∀ c ∈ t.data, c ≠ '/') : goDir t = "." := by
  unfold goDir
  have hnil : t.data.reverse.dropWhile (fun c => c != '/') = [] := by
    rw [List.dropWhile_eq_nil_iff]
    intro x hx
    simp only [List.mem_reverse] at hx
    simp [h x hx]
  rw [hnil]
  decide

/-- With sufficient fuel, `sizeLoop` multiplies the divisor by `1024^k` and
adds `k` to the exponent, where `k` is the unique iteration count leaving the
running quotient below 1024 while every earlier quotient was at least 1024. -/
theorem sizeLoop_spec :
    ∀ (fuel n dv ex : Nat), n ≤ fuel →
      ∃ k, sizeLoop fuel n dv ex = (dv * 1024 ^ k, ex + k) ∧
        n / 1024 ^ k < 1024 ∧ ∀ j, j < k → 1024 ≤ n / 1024 ^ j := by
  intro fuel
  induction fuel with
  | zero =>
      intro n dv ex hn
      refine ⟨0, ?_, ?_, ?_⟩
      · simp [sizeLoop]
      · simpa using by omega
      · omega
  | succ fuel ih =>
      intro n dv ex hn
      by_cases h : 1024 ≤ n
      · have hrec : n / 1024 ≤ fuel := by
          have := Nat.div_lt_self (show 0 < n by omega) (show 1 < 1024 by omega)
          omega
        obtain ⟨k, hk1, hk2, hk3⟩ := ih (n / 1024) (dv * 1024) (ex + 1) hrec
        refine ⟨k + 1, ?_, ?_, ?_⟩
        · rw [sizeLoop, if_pos h, hk1, Prod.mk.injEq]
          constructor
          · ring
          · omega
        · rw [Nat.div_div_eq_div_mul] at hk2
          have hpe : (1024 : Nat) ^ (k + 1) = 1024 * 1024 ^ k := by ring
          rw [hpe]
          exact hk2
        · intro j hj
          cases j with
          | zero => simpa using h
          | succ j' =>
              have h3 := hk3 j' (by omega)
              rw [Nat.div_div_eq_div_mul] at h3
              have hpe : (1024 : Nat) ^ (j' + 1) = 1024 * 1024 ^ j' := by ring
              rw [hpe]
              exact h3
      · refine ⟨0, ?_, ?_, ?_⟩
        · rw [sizeLoop, if_neg h]
          simp
        · simpa using by omega
        · omega

/-- C1 (counterexample): the claim says a key whose listing contains no entry
other than the one equal to the key itself is reported not handled and
answered 404.  But `hasContent` is set before the placeholder skip
(main.go 219-222), so a placeholder-only listing renders a parent-only
listing: `phStore` lists only the placeholder `a/` for key `a/`, yet the
directory resolver reports handled and the request is served a listing, not a
404. -/
theorem dir_placeholder_only_renders :
    handleDirectory phStore "a" = .rendered "/a/" [parentDirEntry "a/"] ∧
    (handleDirectory phStore "a").handled = true ∧
    handler phStore "/a" = .servedDirectory :=
  ⟨by decide, by decide, by decide⟩

/-- C1 (amended): for every key whose non-recursive listing yields no items at
all, the directory resolver reports not handled (the `hasContent` miss), the
synthesized parent entry is discarded, and — when the file resolver also
missed — the request is answered 404.  (If the listing returns the
placeholder entry equal to the key, `hasContent` is set and a listing is
rendered instead.) -/
theorem dir_empty_listing_not_handled (s : Store) (r : String)
    (h : s.listObjects (normPre (goTrimPre r "/")) = []) :
    handleDirectory s (goTrimPre r "/") = .noContent ∧
    ((handleFile s (goTrimPre r "/")).handled = false → handler s r = .notFound) := by
  have hd := handleDirectory_nil s (goTrimPre r "/") h
  refine ⟨hd, fun hf => ?_⟩
  simp [handler, hf, hd, DirOutcome.handled]

/-- C1 witness: `emptyStore` lists nothing under `a/` and stats nothing, so
requesting `/a/` misses both resolvers and yields 404. -/
theorem dir_empty_listing_not_handled_witness :
    emptyStore.listObjects (normPre (goTrimPre "/a/" "/")) = [] ∧
    (handleFile emptyStore (goTrimPre "/a/" "/")).handled = false ∧
    handleDirectory emptyStore (goTrimPre "/a/" "/") = .noContent ∧
    handler emptyStore "/a/" = .notFound :=
  ⟨by decide, by decide,
   (dir_empty_listing_not_handled emptyStore "/a/" (by decide)).1,
   (dir_empty_listing_not_handled emptyStore "/a/" (by decide)).2 (by decide)⟩

/-- C2 (counterexample): the claim says the file resolver reports handled as
soon as the metadata fetch succeeds with a non-directory content type,
independent of the subsequent content fetch.  But a `GetObject` error returns
false (main.go 163-167): `getFailStore` stats `f` as a regular object yet
fails the content fetch, and the resolver reports not handled and the request
falls through to 404. -/
theorem file_get_error_falls_through :
    handleFile getFailStore "f" = .notHandledGetErrLogged ∧
    (handleFile getFailStore "f").handled = false ∧
    handler getFailStore "/f" = .notFound :=
  ⟨by decide, by decide, by decide⟩

/-- C2 (amended): for every key whose metadata fetch succeeds with a
non-directory content type and whose content fetch (`GetObject`) also
succeeds, the file resolver reports handled independent of whether the
`io.Copy` byte transfer succeeds: a mid-transfer failure is logged
(`handledCopyErrLogged`) and never causes a fall-through.  (A `GetObject`
failure, by contrast, reports not handled.) -/
theorem file_handled_after_get (s : Store) (key : String) (i : ObjectInfo)
    (hstat : s.statObject key = .ok i)
    (hct : i.ContentType ≠ "application/x-directory")
    (hget : s.getObject key = .ok ()) :
    (handleFile s key).handled = true ∧
    (∀ e, s.copyResult key = .error e → handleFile s key = .handledCopyErrLogged) := by
  have hb : handleFile s key =
      (match s.copyResult key with
        | .error _ => FileOutcome.handledCopyErrLogged
        | .ok _ => FileOutcome.handledOk) := by
    unfold handleFile
    rw [hstat, hget]
    simp only [statInfo]
    rw [if_neg hct]
  constructor
  · rw [hb]
    cases hc : s.copyResult key <;> simp [FileOutcome.handled]
  · intro e he
    rw [hb, he]

/-- C2 witness: `copyFailStore` stats and fetches `f` but the byte transfer
breaks; the resolver still reports handled, with the copy error logged. -/
theorem file_handled_after_get_witness :
    (handleFile copyFailStore "f").handled = true ∧
    handleFile copyFailStore "f" = .handledCopyErrLogged :=
  ⟨(file_handled_after_get copyFailStore "f" { ContentType := "text/plain", Size := 5 }
      rfl (by decide) rfl).1,
   (file_handled_after_get copyFailStore "f" { ContentType := "text/plain", Size := 5 }
      rfl (by decide) rfl).2 { Code := "BrokenPipe" } rfl⟩

/-- C3: the handler strips one leading slash, tries the file resolver first,
stopping when it reports handled, only then the directory resolver, and
answers 404 when both miss; for the ambiguous key `a/b` existing both as a
real object and as a listable key (`ambStore`), `/a/b` serves the file even
though the directory resolver would also have handled it. -/
theorem router_file_first :
    (∀ (s : Store) (r : String),
      handler s r =
        if (handleFile s (goTrimPre r "/")).handled then RouteResult.servedFile
        else if (handleDirectory s (goTrimPre r "/")).handled then RouteResult.servedDirectory
        else RouteResult.notFound) ∧
    (handleFile ambStore "a/b").handled = true ∧
    (handleDirectory ambStore "a/b").handled = true ∧
    handler ambStore "/a/b" = RouteResult.servedFile :=
  ⟨fun _ _ => rfl, by decide, by decide, by decide⟩

/-- C4: if the listing channel yields an error at any point during
enumeration, the directory resolver aborts with `listError` (reporting not
handled), no partial listing is rendered, and — when the file resolver also
missed — the request is answered 404. -/
theorem dir_list_error_aborts (s : Store) (r : String)
    (h : ∃ o ∈ s.listObjects (normPre (goTrimPre r "/")), o.Err.isSome = true) :
    handleDirectory s (goTrimPre r "/") = .listError ∧
    ((handleFile s (goTrimPre r "/")).handled = false → handler s r = .notFound) := by
  have hd : handleDirectory s (goTrimPre r "/") = .listError := by
    unfold handleDirectory
    rw [dirLoop_err _ _ _ _ h]
  refine ⟨hd, fun hf => ?_⟩
  simp [handler, hf, hd, DirOutcome.handled]

/-- C4 witness: `listErrStore` lists one good item under `e/` and then a
channel error; requesting `/e` yields 404 despite the received item. -/
theorem dir_list_error_aborts_witness :
    (∃ o ∈ listErrStore.listObjects (normPre (goTrimPre "/e" "/")), o.Err.isSome = true) ∧
    handleDirectory listErrStore (goTrimPre "/e" "/") = .listError ∧
    handler listErrStore "/e" = .notFound :=
  ⟨by decide,
   (dir_list_error_aborts listErrStore "/e" (by decide)).1,
   (dir_list_error_aborts listErrStore "/e" (by decide)).2 (by decide)⟩

/-- C5: a metadata-fetch failure other than NoSuchKey makes the file resolver
take its logged-error exit and report not handled, so the request falls
through to directory resolution (listing result or 404); no distinct error
status is surfaced. -/
theorem file_stat_error_falls_through (s : Store) (key : String) (e : StoreErr)
    (hstat : s.statObject key = .error e) (hcode : e.Code ≠ "NoSuchKey") :
    handleFile s key = .notHandledStatErrLogged ∧
    (handleFile s key).handled = false ∧
    (∀ r, goTrimPre r "/" = key →
      handler s r =
        if (handleDirectory s key).handled then RouteResult.servedDirectory
        else RouteResult.notFound) := by
  have h1 : handleFile s key = .notHandledStatErrLogged := by
    unfold handleFile
    rw [hstat]
    simp only [statInfo]
    rw [if_neg (by decide : ¬ (zeroObjectInfo.ContentType = "application/x-directory"))]
    rw [if_neg hcode]
  refine ⟨h1, by rw [h1]; rfl, fun r hr => ?_⟩
  simp [handler, hr, h1, FileOutcome.handled]

/-- C5 witness: `statFailStore` fails every stat with `SlowDown`; requesting
`/k` logs, falls through to the (empty) directory resolution and yields
404. -/
theorem file_stat_error_falls_through_witness :
    (goTrimPre "/k" "/" = "k") ∧
    handleFile statFailStore "k" = .notHandledStatErrLogged ∧
    handler statFailStore "/k" =
      (if (handleDirectory statFailStore "k").handled then RouteResult.servedDirectory
       else RouteResult.notFound) :=
  ⟨by decide,
   (file_stat_error_falls_through statFailStore "k" { Code := "SlowDown" } rfl (by decide)).1,
   (file_stat_error_falls_through statFailStore "k" { Code := "SlowDown" } rfl
      (by decide)).2.2 "/k" (by decide)⟩

/-- C6: in a rendered listing, the item equal to the normalised key is skipped
and every other item yields exactly one entry in listing order, classified as
a directory row (basename, size `-`, zero timestamp) when its storage class is
empty, and as a file row (basename, human-readable size, the item's
last-modified timestamp) otherwise. -/
theorem dir_children_classified (s : Store) (p pth : String) (es : List DirEntry)
    (h : handleDirectory s p = .rendered pth es) :
    es = initEntries (normPre p) ++
      ((s.listObjects (normPre p)).filter (fun o => o.Key != normPre p)).map mkChildEntry ∧
    ∀ o : ListedObj,
      (o.StorageClass = "" → mkChildEntry o =
        { URL := "/" ++ o.Key, Name := goPathBase o.Key, Size := "-", ModTime := 0,
          IsDir := true, Icon := getFileIcon "dir" }) ∧
      (o.StorageClass ≠ "" → mkChildEntry o =
        { URL := "/" ++ o.Key, Name := goPathBase o.Key, Size := formatSize o.Size,
          ModTime := o.LastModified, IsDir := false, Icon := getFileIcon "file" }) := by
  refine ⟨(handleDirectory_rendered s p pth es h).1, fun o => ⟨fun hsc => ?_, fun hsc => ?_⟩⟩
  · simp [mkChildEntry, hsc]
  · simp [mkChildEntry, hsc]

/-- C6 witness: `fileDirStore` lists the placeholder `d/`, a file and a
sub-directory under `d/`; the rendered rows skip the placeholder and classify
the two children. -/
theorem dir_children_classified_witness :
    handleDirectory fileDirStore "d" = .rendered "/d/" wEntriesC6 ∧
    wEntriesC6 = initEntries (normPre "d") ++
      ((fileDirStore.listObjects (normPre "d")).filter
        (fun o => o.Key != normPre "d")).map mkChildEntry :=
  ⟨by decide, (dir_children_classified fileDirStore "d" "/d/" wEntriesC6 (by decide)).1⟩

/-- C7: a rendered listing for a non-root key begins with the single synthetic
`..` directory entry pointing at the parent of the slash-trimmed key with `/`
re-appended, followed by the enumerated children in exactly the store's order;
for the bucket root the listing is exactly the children, with no synthetic
parent entry. -/
theorem dir_parent_first_in_order (s : Store) (p pth : String) (es : List DirEntry)
    (h : handleDirectory s p = .rendered pth es) :
    (normPre p ≠ "" →
      es = parentDirEntry (normPre p) ::
        ((s.listObjects (normPre p)).filter (fun o => o.Key != normPre p)).map mkChildEntry ∧
      (parentDirEntry (normPre p)).Name = ".." ∧
      (parentDirEntry (normPre p)).IsDir = true ∧
      (parentDirEntry (normPre p)).URL =
        "/" ++ (goDir (goTrimSuffix (normPre p) "/") ++ "/")) ∧
    (normPre p = "" →
      es = ((s.listObjects "").filter (fun o => o.Key != "")).map mkChildEntry) := by
  have h1 := (handleDirectory_rendered s p pth es h).1
  constructor
  · intro hne
    refine ⟨?_, rfl, rfl, rfl⟩
    rw [h1]
    simp [initEntries, hne]
  · intro he
    rw [h1, he]
    simp [initEntries]

/-- C7 witness: the non-root key `x/y/` of `nestedStore` renders `..` (to
`/x/`) first then its two children in store order, and the bucket root of
`rootStore` renders exactly its two top-level children with no `..`. -/
theorem dir_parent_first_in_order_witness :
    handleDirectory nestedStore "x/y" = .rendered "/x/y/" wEntriesC7 ∧
    (wEntriesC7 = parentDirEntry (normPre "x/y") ::
        ((nestedStore.listObjects (normPre "x/y")).filter
          (fun o => o.Key != normPre "x/y")).map mkChildEntry ∧
      (parentDirEntry (normPre "x/y")).Name = ".." ∧
      (parentDirEntry (normPre "x/y")).IsDir = true ∧
      (parentDirEntry (normPre "x/y")).URL =
        "/" ++ (goDir (goTrimSuffix (normPre "x/y") "/") ++ "/")) ∧
    handleDirectory rootStore "" = .rendered "/" wEntriesRoot ∧
    wEntriesRoot = ((rootStore.listObjects "").filter (fun o => o.Key != "")).map mkChildEntry :=
  ⟨by decide,
   (dir_parent_first_in_order nestedStore "x/y" "/x/y/" wEntriesC7 (by decide)).1 (by decide),
   by decide,
   (dir_parent_first_in_order rootStore "" "/" wEntriesRoot (by decide)).2 (by decide)⟩

/-- C8: `formatSize` renders non-negative int64 sizes below 1024 as `"<n> B"`;
otherwise it divides by the largest power of 1024 not exceeding the value
(`1024^(e+1) ≤ size < 1024^(e+2)` with unit letter `"KMGTPE"[e]`, `e ≤ 5` in
the int64 range) and renders one decimal place; in particular 0, 1023, 1024,
1536 and 1048576 render as listed. -/
theorem formatSize_spec (size : Int) (h0 : 0 ≤ size) (h63 : size < 2 ^ 63) :
    (size < 1024 → formatSize size = toString size ++ " B") ∧
    (1024 ≤ size → ∃ e : Nat, e ≤ 5 ∧
      sizeLoop (size.toNat / 1024) (size.toNat / 1024) 1024 0 = (1024 ^ (e + 1), e) ∧
      1024 ^ (e + 1) ≤ size.toNat ∧ size.toNat < 1024 ^ (e + 2) ∧
      formatSize size = formatOneDecimal size.toNat (1024 ^ (e + 1)) ++ " " ++
        String.singleton ("KMGTPE".data.getD e 'A') ++ "B") ∧
    formatSize 0 = "0 B" ∧ formatSize 1023 = "1023 B" ∧ formatSize 1024 = "1.0 KB" ∧
    formatSize 1536 = "1.5 KB" ∧ formatSize 1048576 = "1.0 MB" := by
  refine ⟨?_, ?_, by decide, by decide, by decide, by decide, by decide⟩
  · intro hlt
    simp [formatSize, hlt]
  · intro hge
    have hN : 1024 ≤ size.toNat := by omega
    have hN63 : size.toNat < 2 ^ 63 := by omega
    obtain ⟨k, hk1, hk2, hk3⟩ :=
      sizeLoop_spec (size.toNat / 1024) (size.toNat / 1024) 1024 0 le_rfl
    have hpk : (1024 : Nat) * 1024 ^ k = 1024 ^ (k + 1) := by ring
    have hk1' : sizeLoop (size.toNat / 1024) (size.toNat / 1024) 1024 0 =
        (1024 ^ (k + 1), k) := by
      rw [hk1, Prod.mk.injEq]
      exact ⟨hpk, by omega⟩
    have hup : size.toNat < 1024 ^ (k + 2) := by
      rw [Nat.div_div_eq_div_mul] at hk2
      have h2 := (Nat.div_lt_iff_lt_mul (by positivity)).mp hk2
      have : (1024 : Nat) * 1024 ^ k * 1024 = 1024 ^ (k + 2) := by ring
      omega
    have hlow : 1024 ^ (k + 1) ≤ size.toNat := by
      cases k with
      | zero => simpa using hN
      | succ k' =>
          have h3 := hk3 k' (Nat.lt_succ_self k')
          rw [Nat.div_div_eq_div_mul] at h3
          have h4 := (Nat.le_div_iff_mul_le (by positivity)).mp h3
          have : (1024 : Nat) * (1024 * 1024 ^ k') = 1024 ^ (k' + 1 + 1) := by ring
          omega
    have hk5 : k ≤ 5 := by
      by_contra hk
      push_neg at hk
      have h7 : (1024 : Nat) ^ 7 ≤ 1024 ^ (k + 1) :=
        Nat.pow_le_pow_right (by omega) (by omega)
      have e1 : (1024 : Nat) ^ 7 = 1180591620717411303424 := by norm_num
      have e2 : (2 : Nat) ^ 63 = 9223372036854775808 := by norm_num
      omega
    refine ⟨k, hk5, hk1', hlow, hup, ?_⟩
    have hnlt : ¬ size < 1024 := by omega
    rw [formatSize, if_neg hnlt, hk1']

/-- C8 witness: the hypotheses hold at 1536 and the formatter yields
`"1.5 KB"`. -/
theorem formatSize_spec_witness :
    (0 : Int) ≤ 1536 ∧ (1536 : Int) < 2 ^ 63 ∧ formatSize 1536 = "1.5 KB" :=
  ⟨by decide, by decide, (formatSize_spec 1536 (by decide) (by decide)).2.2.2.2.2.1⟩

/-- C9: a key whose stat'd metadata carries the content type
`application/x-directory` makes the file resolver take its directory-marker
exit before any content fetch: it reports not handled and serves no body,
deferring to directory resolution. -/
theorem file_dir_marker_not_handled (s : Store) (key : String) (i : ObjectInfo)
    (hstat : s.statObject key = .ok i)
    (hct : i.ContentType = "application/x-directory") :
    handleFile s key = .notHandledDirMarker ∧ (handleFile s key).handled = false := by
  have h1 : handleFile s key = .notHandledDirMarker := by
    unfold handleFile
    rw [hstat]
    simp [statInfo, hct]
  exact ⟨h1, by rw [h1]; rfl⟩

/-- C9 witness: `dirMarkerStore` stats `p` as a directory placeholder and the
file resolver defers. -/
theorem file_dir_marker_not_handled_witness :
    (handleFile dirMarkerStore "p" = .notHandledDirMarker) ∧
    (handleFile dirMarkerStore "p").handled = false :=
  ⟨(file_dir_marker_not_handled dirMarkerStore "p"
      { ContentType := "application/x-directory", Size := 0 } rfl rfl).1,
   (file_dir_marker_not_handled dirMarkerStore "p"
      { ContentType := "application/x-directory", Size := 0 } rfl rfl).2⟩

/-- C10: for a non-root key whose slash-trimmed form contains no slash (a
top-level directory such as `a/`), the synthetic `..` entry heads the rendered
listing and its URL is `/./` — Go `path.Dir` of a single segment is `.`,
and `/` is re-appended around it. -/
theorem dir_top_level_parent_url (s : Store) (p pth : String) (es : List DirEntry)
    (hne : normPre p ≠ "")
    (hns : ∀ c ∈ (goTrimSuffix (normPre p) "/").data, c ≠ '/')
    (h : handleDirectory s p = .rendered pth es) :
    (parentDirEntry (normPre p)).URL = "/./" ∧
    es.head? = some (parentDirEntry (normPre p)) := by
  constructor
  · show "/" ++ (goDir (goTrimSuffix (normPre p) "/") ++ "/") = "/./"
    rw [goDir_no_slash _ hns]
    decide
  · have h1 := (handleDirectory_rendered s p pth es h).1
    rw [h1]
    simp [initEntries, hne]

/-- C10 witness: requesting the top-level directory `a` of `topDirStore`
renders a listing headed by a `..` entry whose URL is `/./`, not `/`. -/
theorem dir_top_level_parent_url_witness :
    handleDirectory topDirStore "a" = .rendered "/a/" wEntriesC10 ∧
    (parentDirEntry (normPre "a")).URL = "/./" ∧
    wEntriesC10.head? = some (parentDirEntry (normPre "a")) :=
  ⟨by decide,
   (dir_top_level_parent_url topDirStore "a" "/a/" wEntriesC10 (by decide) (by decide)
      (by decide)).1,
   (dir_top_level_parent_url topDirStore "a" "/a/" wEntriesC10 (by decide) (by decide)
      (by decide)).2⟩
